import Mathlib

/-!
Verification of the block-locator (findBlock) and fee-estimator (estimateGasPrice)
of the web3-extensions repository, embedded shallowly from src/unnamed/part_001
(the revision of network.ts carrying the 1-second duration floor and the genesis
guard, which is the revision the specification describes).

JavaScript number arithmetic on timestamps and durations is modelled exactly over
the rationals; timestamps and block numbers are integers in the source data.
The RPC client is modelled as a total map from block numbers to block records,
together with the head block number.  Only block-by-number queries are recorded
in the query trace (the initial query for the latest block carries no number).
The search loop of findBlock need not terminate in general, so it is given fuel;
running out of fuel is a distinct outcome, and every theorem about a complete
run supplies enough fuel explicitly.
-/

/-- A chain block as findBlock consumes it: number and timestamp (seconds). -/
structure BlockInfo where
  number : Int
  timestamp : Int
deriving DecidableEq

/-- The RPC client state seen by findBlock: a total block-by-number map plus the
current head block number. -/
structure Chain where
  blockAt : Int → BlockInfo
  head : Int

/-- Outcome of a findBlock run. -/
inductive FindBlockResult where
  | ok : BlockInfo → FindBlockResult
  | futureError : FindBlockResult
  | genesisError : Int → FindBlockResult
  | outOfFuel : FindBlockResult
deriving DecidableEq

/-- The convergence guard of the loop: Math.abs(estDistanceInBlocks) > closestDistance,
where closestDistance starts at positive infinity (modelled as none). -/
def distGrew (closest : Option Int) (est : Int) : Bool :=
  match closest with
  | none => false
  | some c => decide (c < |est|)

/-- The while loop of findBlock (src/unnamed/part_001 lines 163-174), with fuel.
Returns the outcome together with the list of block numbers queried; the genesis
error path queries block 0 for the timestamp in its message. -/
def findBlockLoop (chain : Chain) (target avg : ℚ) :
    Option Int → BlockInfo → Nat → FindBlockResult × List Int
  | _, _, 0 => (.outOfFuel, [])
  | closest, cand, fuel + 1 =>
    if avg ≤ |(cand.timestamp : ℚ) - target| then
      let est : Int := ⌊((cand.timestamp : ℚ) - target) / avg⌋
      if distGrew closest est then (.ok cand, [])
      else if cand.number - est < 0 then
        (.genesisError (chain.blockAt 0).timestamp, [0])
      else
        let rest := findBlockLoop chain target avg (some |est|)
          (chain.blockAt (cand.number - est)) fuel
        (rest.1, (cand.number - est) :: rest.2)
    else (.ok cand, [])

/-- avgBlockDurationSec of findBlock: Math.max(1, (currentTs - referenceTs) / 10000). -/
def avgBlockDurationSec (cur ref : BlockInfo) : ℚ :=
  max 1 (((cur.timestamp - ref.timestamp : Int) : ℚ) / 10000)

/-- The reference block fetched by findBlock: 10000 blocks behind the head. -/
def referenceBlock (chain : Chain) : BlockInfo :=
  chain.blockAt ((chain.blockAt chain.head).number - 10000)

/-- findBlock (src/unnamed/part_001 lines 144-178).  The timestamp argument is in
milliseconds; the future check precedes every block-by-number query. -/
def findBlock (chain : Chain) (timestampMillis : Int) (fuel : Nat) :
    FindBlockResult × List Int :=
  let currentBlock := chain.blockAt chain.head
  if ((timestampMillis : ℚ) / 1000) > (currentBlock.timestamp : ℚ) then
    (.futureError, [])
  else
    let candidate := referenceBlock chain
    let avg := avgBlockDurationSec currentBlock candidate
    let rest := findBlockLoop chain ((timestampMillis : ℚ) / 1000) avg none candidate fuel
    (rest.1, (currentBlock.number - 10000) :: rest.2)

/-! ## Fee estimator (estimateGasPrice) -/

/-- Value of one hexadecimal digit; other characters contribute 0 (the library
yields NaN on them, a case no fee-history sample of the claims exercises). -/
def hexDigitVal (c : Char) : Nat :=
  if 48 ≤ c.toNat ∧ c.toNat ≤ 57 then c.toNat - 48
  else if 97 ≤ c.toNat ∧ c.toNat ≤ 102 then c.toNat - 87
  else if 65 ≤ c.toNat ∧ c.toNat ≤ 70 then c.toNat - 55
  else 0

/-- Base-16 positional value of a digit sequence. -/
def hexChars (l : List Char) : Nat :=
  l.foldl (fun acc c => 16 * acc + hexDigitVal c) 0

/-- The integer a string denotes in base 16, an optional leading 0x or 0X allowed. -/
def hexVal (s : String) : Nat :=
  match s.toList with
  | '0' :: 'x' :: rest => hexChars rest
  | '0' :: 'X' :: rest => hexChars rest
  | l => hexChars l

/-- Modelled from the spec and the bignumber.js library: bn(r, 16) from utils.ts
(utils.ts is not under src/; the call with radix 16 is in the source at
src/unnamed/part_001 lines 236-238).  Reads the string as a base-16 number. -/
def bnHex (s : String) : ℚ := (hexVal s : ℚ)

/-- Insert into a sorted list, keeping it sorted. -/
def insertLe (x : ℚ) : List ℚ → List ℚ
  | [] => [x]
  | y :: ys => if x ≤ y then x :: y :: ys else y :: insertLe x ys

/-- Sort ascending. -/
def sortLe (l : List ℚ) : List ℚ := l.foldr insertLe []

/-- Modelled from the spec: the median utility of utils.ts (not under src/):
for an ordered sequence of N numbers the middle element when N is odd, else
the arithmetic mean of the two central elements; zero for an empty sequence. -/
def median (l : List ℚ) : ℚ :=
  let s := sortLe l
  if s.length = 0 then 0
  else if s.length % 2 = 1 then s.getD (s.length / 2) 0
  else (s.getD (s.length / 2 - 1) 0 + s.getD (s.length / 2) 0) / 2

/-- BigNumber.integerValue() under the default ROUND_HALF_UP mode: round to the
nearest integer, ties away from zero. -/
def integerValue (q : ℚ) : Int :=
  if 0 ≤ q then ⌊q + 1 / 2⌋ else -⌊-q + 1 / 2⌋

/-- One gas tier of the result record: max fee and priority tip, in wei. -/
structure FeeTier where
  max : Int
  tip : Int
deriving DecidableEq

/-- The record estimateGasPrice returns. -/
structure GasEstimate where
  slow : FeeTier
  med : FeeTier
  fast : FeeTier
  baseFeePerGas : ℚ
  pendingBlockNumber : Int
  pendingBlockTimestamp : Int
deriving DecidableEq

/-- The RPC responses estimateGasPrice consumes: the pending-block
baseFeePerGas field (absent allowed) and timestamp, the latest block number,
and the fee-history reward matrix (none models the call failing). -/
structure RpcState where
  pendingBaseFee : Option ℚ
  pendingTimestamp : Int
  latestBlockNumber : Int
  feeHistory : Option (List (List String))

/-- The reward column at percentile position i: bn(r[i], 16) per sampled block.
An out-of-range index is read as 0 (undefined in JavaScript, unexercised: the
claims only sample rows of length 3). -/
def rewardAt (reward : List (List String)) (i : Nat) : List ℚ :=
  reward.map fun r => bnHex (r.getD i "0")

/-- estimateGasPrice (src/unnamed/part_001 lines 228-249).  The failing
fee-history call is caught into an empty reward list; baseFeePerGas falls back
to 1e8 when the field is absent or zero (JavaScript || on a falsy value); the
retry wrapper around the pure computation is the identity here. -/
def estimateGasPrice (st : RpcState) : GasEstimate :=
  let reward := st.feeHistory.getD []
  let baseFeePerGas : ℚ :=
    match st.pendingBaseFee with
    | none => 1e8
    | some b => if b = 0 then 1e8 else b
  let slow := median (rewardAt reward 0)
  let med := median (rewardAt reward 1)
  let fast := median (rewardAt reward 2)
  { slow := ⟨integerValue (baseFeePerGas * 1.25 + slow), integerValue slow⟩
    med := ⟨integerValue (baseFeePerGas * 1.25 + med), integerValue med⟩
    fast := ⟨integerValue (baseFeePerGas * 1.25 + fast), integerValue fast⟩
    baseFeePerGas := baseFeePerGas
    pendingBlockNumber := st.latestBlockNumber + 1
    pendingBlockTimestamp := st.pendingTimestamp }

/-! ## Concrete fixtures -/

/-- A short chain: head block 5, every timestamp 1000 seconds. -/
def chainA : Chain := ⟨fun n => ⟨n, 1000⟩, 5⟩

/-- A flat-timestamp chain with head block 10000: block numbers strictly
increasing, timestamps non-decreasing (all equal), a valid chain state. -/
def chainFlat : Chain := ⟨fun n => ⟨n, 100000⟩, 10000⟩

/-- A 12-second chain: block n at timestamp 12n, head block 10000. -/
def chain12 : Chain := ⟨fun n => ⟨n, 12 * n⟩, 10000⟩

/-- An auxiliary chain for exercising single search steps. -/
def chainB : Chain := ⟨fun n => ⟨n, 0⟩, 0⟩

/-- A chain whose block n has timestamp n, with head block 10000. -/
def chainC : Chain := ⟨fun n => ⟨n, n⟩, 10000⟩

/-- Fee-estimator fixture: the fee-history call fails. -/
def stFail : RpcState := ⟨some 8, 5, 7, none⟩

/-- Fee-estimator fixture: the three-row sample of the spec. -/
def stSample : RpcState :=
  ⟨some 7, 3, 42, some [["1", "2", "3"], ["3", "4", "5"], ["5", "6", "7"]]⟩

/-- Fee-estimator fixture: pending block without a baseFeePerGas field. -/
def stNoBase : RpcState := ⟨none, 11, 20, some [["a", "b", "c"]]⟩

/-- Fee-estimator fixture: the sample string "10" at every position. -/
def stHex : RpcState := ⟨some 3, 1, 2, some [["10", "10", "10"]]⟩

/-! ## Helper lemmas -/

theorem integerValue_natCast (n : Nat) : integerValue (n : ℚ) = n := by
  rw [integerValue, if_pos (by positivity)]
  rw [Int.floor_eq_iff]
  refine ⟨by push_cast; linarith, by push_cast; linarith⟩

theorem median_singleton (x : ℚ) : median [x] = x := by
  norm_num [median, sortLe, insertLe]

/-! ## Theorems -/

/-- C7: for every RPC client state, the pendingBlockNumber field of the record
returned by estimateGasPrice equals the latest block number plus 1. -/
theorem estimateGasPrice_pendingBlockNumber (st : RpcState) :
    (estimateGasPrice st).pendingBlockNumber = st.latestBlockNumber + 1 := rfl

/-- C6: when the fee-history call fails (reward list empty), estimateGasPrice
still returns a record; every tier tip is 0 and every tier max is
baseFeePerGas * 1.25 rounded to an integer. -/
theorem estimateGasPrice_feeHistory_failure (st : RpcState)
    (h : st.feeHistory = none) :
    (estimateGasPrice st).slow.tip = 0 ∧ (estimateGasPrice st).med.tip = 0 ∧
      (estimateGasPrice st).fast.tip = 0 ∧
      (estimateGasPrice st).slow.max =
        integerValue ((estimateGasPrice st).baseFeePerGas * 1.25) ∧
      (estimateGasPrice st).med.max =
        integerValue ((estimateGasPrice st).baseFeePerGas * 1.25) ∧
      (estimateGasPrice st).fast.max =
        integerValue ((estimateGasPrice st).baseFeePerGas * 1.25) := by
  norm_num [estimateGasPrice, h, rewardAt, median, sortLe, integerValue]

theorem estimateGasPrice_feeHistory_failure_witness :
    (estimateGasPrice stFail).slow.tip = 0 ∧ (estimateGasPrice stFail).med.tip = 0 ∧
      (estimateGasPrice stFail).fast.tip = 0 ∧
      (estimateGasPrice stFail).slow.max =
        integerValue ((estimateGasPrice stFail).baseFeePerGas * 1.25) ∧
      (estimateGasPrice stFail).med.max =
        integerValue ((estimateGasPrice stFail).baseFeePerGas * 1.25) ∧
      (estimateGasPrice stFail).fast.max =
        integerValue ((estimateGasPrice stFail).baseFeePerGas * 1.25) :=
  estimateGasPrice_feeHistory_failure stFail rfl

/-- C8: with fee-history samples [[1,2,3],[3,4,5],[5,6,7]], the tier tips are
the medians at the three percentile positions: slow 3, med 4, fast 5. -/
theorem estimateGasPrice_sample_medians :
    (estimateGasPrice stSample).slow.tip = 3 ∧
      (estimateGasPrice stSample).med.tip = 4 ∧
      (estimateGasPrice stSample).fast.tip = 5 := by
  norm_num [estimateGasPrice, stSample, rewardAt, median, sortLe, insertLe, integerValue,
    show bnHex ("1") = 1 from rfl, show bnHex ("2") = 2 from rfl,
    show bnHex ("3") = 3 from rfl, show bnHex ("4") = 4 from rfl,
    show bnHex ("5") = 5 from rfl, show bnHex ("6") = 6 from rfl,
    show bnHex ("7") = 7 from rfl]

/-- C9: when the pending block lacks baseFeePerGas, estimateGasPrice substitutes
1e8 both in the returned record and in the max computation, rather than failing. -/
theorem estimateGasPrice_default_baseFee (st : RpcState)
    (h : st.pendingBaseFee = none) :
    (estimateGasPrice st).baseFeePerGas = 1e8 ∧
      (estimateGasPrice st).slow.max =
        integerValue ((1e8 : ℚ) * 1.25 + median (rewardAt (st.feeHistory.getD []) 0)) ∧
      (estimateGasPrice st).med.max =
        integerValue ((1e8 : ℚ) * 1.25 + median (rewardAt (st.feeHistory.getD []) 1)) ∧
      (estimateGasPrice st).fast.max =
        integerValue ((1e8 : ℚ) * 1.25 + median (rewardAt (st.feeHistory.getD []) 2)) := by
  refine ⟨?_, ?_, ?_, ?_⟩ <;> simp [estimateGasPrice, h]

theorem estimateGasPrice_default_baseFee_witness :
    (estimateGasPrice stNoBase).baseFeePerGas = 1e8 ∧
      (estimateGasPrice stNoBase).slow.max =
        integerValue ((1e8 : ℚ) * 1.25 + median (rewardAt (stNoBase.feeHistory.getD []) 0)) ∧
      (estimateGasPrice stNoBase).med.max =
        integerValue ((1e8 : ℚ) * 1.25 + median (rewardAt (stNoBase.feeHistory.getD []) 1)) ∧
      (estimateGasPrice stNoBase).fast.max =
        integerValue ((1e8 : ℚ) * 1.25 + median (rewardAt (stNoBase.feeHistory.getD []) 2)) :=
  estimateGasPrice_default_baseFee stNoBase rfl

/-- C10: every fee-history reward sample is read in base 16: with the same
sample string r at all three positions, every tip is the base-16 value of r;
the sample "10" denotes 16, not 10. -/
theorem estimateGasPrice_hex_rewards (st : RpcState) (r : String)
    (h : st.feeHistory = some [[r, r, r]]) :
    (estimateGasPrice st).slow.tip = (hexVal r : Int) ∧
      (estimateGasPrice st).med.tip = (hexVal r : Int) ∧
      (estimateGasPrice st).fast.tip = (hexVal r : Int) ∧
      hexVal ("10") = 16 := by
  have hm0 : median (rewardAt [[r, r, r]] 0) = (hexVal r : ℚ) := by
    simp [rewardAt, median_singleton, bnHex]
  have hm1 : median (rewardAt [[r, r, r]] 1) = (hexVal r : ℚ) := by
    simp [rewardAt, median_singleton, bnHex]
  have hm2 : median (rewardAt [[r, r, r]] 2) = (hexVal r : ℚ) := by
    simp [rewardAt, median_singleton, bnHex]
  refine ⟨?_, ?_, ?_, rfl⟩ <;>
    simp [estimateGasPrice, h, hm0, hm1, hm2, integerValue_natCast]

theorem estimateGasPrice_hex_rewards_witness :
    (estimateGasPrice stHex).slow.tip = (hexVal ("10") : Int) ∧
      (estimateGasPrice stHex).med.tip = (hexVal ("10") : Int) ∧
      (estimateGasPrice stHex).fast.tip = (hexVal ("10") : Int) ∧
      hexVal ("10") = 16 :=
  estimateGasPrice_hex_rewards stHex ("10") rfl

/-- C3: The findBlock average block duration is computed over the reference block
exactly 10000 blocks behind the head as max(1, (headTs - refTs) / 10000), and is
therefore at least 1 second for every chain state. -/
theorem avgBlockDuration_floor (chain : Chain) (cur ref : BlockInfo) :
    referenceBlock chain = chain.blockAt ((chain.blockAt chain.head).number - 10000) ∧
      avgBlockDurationSec cur ref =
        max 1 (((cur.timestamp - ref.timestamp : Int) : ℚ) / 10000) ∧
      1 ≤ avgBlockDurationSec cur ref :=
  ⟨rfl, rfl, le_max_left 1 _⟩

/-- C2: a target timestamp strictly above the head block timestamp (after
millisecond-to-second conversion) makes findBlock fail with the future-timestamp
error before any block-by-number query. -/
theorem findBlock_future_timestamp (chain : Chain) (timestampMillis : Int)
    (fuel : Nat)
    (h : 1000 * (chain.blockAt chain.head).timestamp < timestampMillis) :
    findBlock chain timestampMillis fuel = (.futureError, []) := by
  have hq : ((chain.blockAt chain.head).timestamp : ℚ) < (timestampMillis : ℚ) / 1000 := by
    rw [lt_div_iff₀ (by norm_num : (0 : ℚ) < 1000)]
    have := h
    exact_mod_cast (by linarith : (chain.blockAt chain.head).timestamp * 1000 < timestampMillis)
  simp only [findBlock]
  rw [if_pos hq]

theorem findBlock_future_timestamp_witness :
    findBlock chainA 2000000 3 = (.futureError, []) :=
  findBlock_future_timestamp chainA 2000000 3 (by decide)

/-- C4: one step of the search loop.  The loop runs exactly while the candidate
timestamp differs from the target by at least avgBlockDurationSec; the estimated
block distance is the floor of the seconds distance divided by the average; when
its absolute value exceeds that of the previous iteration the loop stops and returns
the current candidate with no further query; otherwise the candidate steps to
block (number - estimate), recording that one query. -/
theorem findBlockLoop_step (chain : Chain) (target avg : ℚ) (closest : Option Int)
    (cand : BlockInfo) (fuel : Nat) :
    (¬ avg ≤ |(cand.timestamp : ℚ) - target| →
        findBlockLoop chain target avg closest cand (fuel + 1) = (.ok cand, [])) ∧
      (avg ≤ |(cand.timestamp : ℚ) - target| →
        distGrew closest ⌊((cand.timestamp : ℚ) - target) / avg⌋ = true →
        findBlockLoop chain target avg closest cand (fuel + 1) = (.ok cand, [])) ∧
      (avg ≤ |(cand.timestamp : ℚ) - target| →
        distGrew closest ⌊((cand.timestamp : ℚ) - target) / avg⌋ = false →
        ¬ cand.number - ⌊((cand.timestamp : ℚ) - target) / avg⌋ < 0 →
        findBlockLoop chain target avg closest cand (fuel + 1) =
          ((findBlockLoop chain target avg
              (some |⌊((cand.timestamp : ℚ) - target) / avg⌋|)
              (chain.blockAt (cand.number - ⌊((cand.timestamp : ℚ) - target) / avg⌋))
              fuel).1,
            (cand.number - ⌊((cand.timestamp : ℚ) - target) / avg⌋) ::
              (findBlockLoop chain target avg
                (some |⌊((cand.timestamp : ℚ) - target) / avg⌋|)
                (chain.blockAt (cand.number - ⌊((cand.timestamp : ℚ) - target) / avg⌋))
                fuel).2)) := by
  refine ⟨fun h1 => ?_, fun h1 h2 => ?_, fun h1 h2 h3 => ?_⟩
  · simp only [findBlockLoop, if_neg h1]
  · simp only [findBlockLoop, if_pos h1, h2, if_true]
  · simp only [findBlockLoop, if_pos h1, h2, Bool.false_eq_true, if_false, if_neg h3]

theorem findBlockLoop_step_witness :
    findBlockLoop chainB 50 1 none ⟨3, 50⟩ 1 = (.ok ⟨3, 50⟩, []) ∧
      findBlockLoop chainB 50 1 (some 1) ⟨7, 55⟩ 1 = (.ok ⟨7, 55⟩, []) ∧
      findBlockLoop chainB 50 1 none ⟨100, 60⟩ 3 =
        ((findBlockLoop chainB 50 1
            (some |⌊(((⟨100, 60⟩ : BlockInfo).timestamp : ℚ) - 50) / 1⌋|)
            (chainB.blockAt ((⟨100, 60⟩ : BlockInfo).number -
              ⌊(((⟨100, 60⟩ : BlockInfo).timestamp : ℚ) - 50) / 1⌋)) 2).1,
          ((⟨100, 60⟩ : BlockInfo).number -
              ⌊(((⟨100, 60⟩ : BlockInfo).timestamp : ℚ) - 50) / 1⌋) ::
            (findBlockLoop chainB 50 1
              (some |⌊(((⟨100, 60⟩ : BlockInfo).timestamp : ℚ) - 50) / 1⌋|)
              (chainB.blockAt ((⟨100, 60⟩ : BlockInfo).number -
                ⌊(((⟨100, 60⟩ : BlockInfo).timestamp : ℚ) - 50) / 1⌋)) 2).2) :=
  ⟨(findBlockLoop_step chainB 50 1 none ⟨3, 50⟩ 0).1 (by norm_num),
    (findBlockLoop_step chainB 50 1 (some 1) ⟨7, 55⟩ 0).2.1 (by norm_num)
      (by norm_num [distGrew]),
    (findBlockLoop_step chainB 50 1 none ⟨100, 60⟩ 2).2.2 (by norm_num)
      (by norm_num [distGrew]) (by norm_num)⟩

theorem findBlockLoop_queries_nonneg (chain : Chain) (target avg : ℚ) :
    ∀ (fuel : Nat) (closest : Option Int) (cand : BlockInfo),
      (((findBlockLoop chain target avg closest cand fuel).2.all
        fun q => decide (0 ≤ q)) = true) := by
  intro fuel
  induction fuel with
  | zero => intro closest cand; rfl
  | succ n ih =>
    intro closest cand
    simp only [findBlockLoop]
    split
    · split
      · rfl
      · split
        · simp
        · rename_i h3
          simp only [List.all_cons, Bool.and_eq_true, decide_eq_true_eq]
          exact ⟨by omega, ih _ _⟩
    · rfl

/-- C1 (amended): provided the head block number is at least 10000 (the
unconditional reference query targets head - 10000 and is negative on shorter
chains), every block-by-number query findBlock issues is non-negative, and a
search step whose target block number would be negative fails with the
genesis-boundary error, reporting the genesis block timestamp without
performing that query or advancing the candidate. -/
theorem findBlock_no_negative_query (chain : Chain) (timestampMillis : Int)
    (fuel : Nat) (target avg : ℚ) (closest : Option Int) (cand : BlockInfo)
    (fuel2 : Nat)
    (hhead : 10000 ≤ (chain.blockAt chain.head).number)
    (hcond : avg ≤ |(cand.timestamp : ℚ) - target|)
    (hgrew : distGrew closest ⌊((cand.timestamp : ℚ) - target) / avg⌋ = false)
    (hneg : cand.number - ⌊((cand.timestamp : ℚ) - target) / avg⌋ < 0) :
    (((findBlock chain timestampMillis fuel).2.all fun q => decide (0 ≤ q)) = true) ∧
      findBlockLoop chain target avg closest cand (fuel2 + 1) =
        (.genesisError (chain.blockAt 0).timestamp, [0]) := by
  constructor
  · simp only [findBlock]
    split
    · rfl
    · simp only [List.all_cons, Bool.and_eq_true, decide_eq_true_eq]
      exact ⟨by omega, findBlockLoop_queries_nonneg chain _ _ fuel none _⟩
  · simp only [findBlockLoop, if_pos hcond, hgrew, Bool.false_eq_true, if_false,
      if_pos hneg]

theorem findBlock_negative_reference_query :
    (findBlock chainA 0 1).2 = [-9995, 0] ∧
      (((findBlock chainA 0 1).2.all fun q => decide (0 ≤ q)) = false) := by
  refine ⟨?_, ?_⟩ <;>
    norm_num [findBlock, findBlockLoop, referenceBlock, avgBlockDurationSec,
      distGrew, chainA]

theorem findBlock_no_negative_query_witness :
    (((findBlock chainC 0 2).2.all fun q => decide (0 ≤ q)) = true) ∧
      findBlockLoop chainC 0 1 none ⟨5, 100⟩ 1 =
        (.genesisError (chainC.blockAt 0).timestamp, [0]) :=
  findBlock_no_negative_query chainC 0 2 0 1 none ⟨5, 100⟩ 0 (by decide)
    (by norm_num) rfl (by norm_num)

/-- C5 counterexample: on the valid flat-timestamp chain (numbers strictly
increasing, timestamps non-decreasing) with head block 10000, findBlock at the
head block own timestamp in milliseconds returns block 0, not the head. -/
theorem findBlock_flat_chain_not_head :
    (findBlock chainFlat 100000000 10).1 = .ok ⟨0, 100000⟩ ∧
      (findBlock chainFlat 100000000 10).1 ≠ .ok (chainFlat.blockAt chainFlat.head) := by
  have h : (findBlock chainFlat 100000000 10).1 = .ok ⟨0, 100000⟩ := by
    norm_num [findBlock, findBlockLoop, referenceBlock, avgBlockDurationSec,
      distGrew, chainFlat]
  refine ⟨h, ?_⟩
  rw [h]
  simp [chainFlat]

/-- C5 (amended): on a valid chain whose head block number is at least 10000 and
whose reference block 10000 blocks behind is at least 10000 seconds older than
the head, findBlock applied to the head block own timestamp in milliseconds
returns the head block (two search iterations suffice).  On flatter chains the
loop can stop at an earlier block carrying the same timestamp. -/
theorem findBlock_head_timestamp_returns_head (chain : Chain) (fuel : Nat)
    (hnum : (chain.blockAt chain.head).number = chain.head)
    (href : (chain.blockAt (chain.head - 10000)).number = chain.head - 10000)
    (hhead : 10000 ≤ chain.head)
    (hgap : 10000 ≤ (chain.blockAt chain.head).timestamp -
      (chain.blockAt (chain.head - 10000)).timestamp)
    (hfuel : 2 ≤ fuel) :
    (findBlock chain ((chain.blockAt chain.head).timestamp * 1000) fuel).1 =
      .ok (chain.blockAt chain.head) := by
  obtain ⟨f, rfl⟩ : ∃ f, fuel = f + 2 := ⟨fuel - 2, by omega⟩
  set cur := chain.blockAt chain.head with hc
  set ref := chain.blockAt (chain.head - 10000) with hr
  have hD : (10000 : ℚ) ≤ (cur.timestamp : ℚ) - (ref.timestamp : ℚ) := by
    exact_mod_cast hgap
  have hDpos : (0 : ℚ) < (cur.timestamp : ℚ) - (ref.timestamp : ℚ) := by linarith
  have htarget : ((cur.timestamp * 1000 : Int) : ℚ) / 1000 = (cur.timestamp : ℚ) := by
    push_cast
    exact mul_div_cancel_right₀ _ (by norm_num)
  have hfut : ¬ ((cur.timestamp * 1000 : Int) : ℚ) / 1000 > (cur.timestamp : ℚ) := by
    rw [htarget]; exact lt_irrefl _
  have hrefblock : referenceBlock chain = ref := by
    rw [referenceBlock, ← hc, hnum]
  have havg : avgBlockDurationSec cur ref =
      ((cur.timestamp : ℚ) - (ref.timestamp : ℚ)) / 10000 := by
    rw [avgBlockDurationSec,
      show ((cur.timestamp - ref.timestamp : Int) : ℚ) =
        (cur.timestamp : ℚ) - (ref.timestamp : ℚ) by push_cast; ring,
      max_eq_right]
    rw [le_div_iff₀ (by norm_num : (0 : ℚ) < 10000)]
    linarith
  have habs : |(ref.timestamp : ℚ) - (cur.timestamp : ℚ)| =
      (cur.timestamp : ℚ) - (ref.timestamp : ℚ) := by
    rw [abs_sub_comm, abs_of_pos hDpos]
  have hcond1 : ((cur.timestamp : ℚ) - (ref.timestamp : ℚ)) / 10000 ≤
      |(ref.timestamp : ℚ) - (cur.timestamp : ℚ)| := by
    rw [habs, div_le_iff₀ (by norm_num : (0 : ℚ) < 10000)]
    nlinarith
  have hest : ⌊((ref.timestamp : ℚ) - (cur.timestamp : ℚ)) /
      (((cur.timestamp : ℚ) - (ref.timestamp : ℚ)) / 10000)⌋ = -10000 := by
    rw [show ((ref.timestamp : ℚ) - (cur.timestamp : ℚ)) /
        (((cur.timestamp : ℚ) - (ref.timestamp : ℚ)) / 10000) = -10000 by
      field_simp
      ring]
    norm_num
  have hstop : findBlockLoop chain (cur.timestamp : ℚ)
      (((cur.timestamp : ℚ) - (ref.timestamp : ℚ)) / 10000)
      (some |(-10000 : Int)|) cur (f + 1) = (.ok cur, []) := by
    simp only [findBlockLoop]
    rw [if_neg]
    rw [sub_self, abs_zero]
    exact not_le.mpr (div_pos hDpos (by norm_num))
  have htg : ref.number - (-10000 : Int) = chain.head := by rw [href]; ring
  have hgrew1 : distGrew none ⌊((ref.timestamp : ℚ) - (cur.timestamp : ℚ)) /
      (((cur.timestamp : ℚ) - (ref.timestamp : ℚ)) / 10000)⌋ = false := rfl
  have hneg1 : ¬ ref.number - ⌊((ref.timestamp : ℚ) - (cur.timestamp : ℚ)) /
      (((cur.timestamp : ℚ) - (ref.timestamp : ℚ)) / 10000)⌋ < 0 := by
    rw [hest]; omega
  have hstep := (findBlockLoop_step chain (cur.timestamp : ℚ)
    (((cur.timestamp : ℚ) - (ref.timestamp : ℚ)) / 10000) none ref (f + 1)).2.2
    hcond1 hgrew1 hneg1
  rw [hest, htg, ← hc, hstop] at hstep
  norm_num at hstep
  simp only [findBlock, hrefblock, havg, htarget]
  rw [← hc]
  rw [if_neg (lt_irrefl ((cur.timestamp : ℚ)))]
  rw [hstep]

theorem findBlock_head_timestamp_witness :
    (findBlock chain12 ((chain12.blockAt chain12.head).timestamp * 1000) 2).1 =
      .ok (chain12.blockAt chain12.head) :=
  findBlock_head_timestamp_returns_head chain12 2 (by decide) (by decide)
    (by decide) (by decide) (by decide)
